import Mathlib

/-!
Shallow embedding of the custom build command `BuildConvPhase` from the
repository's `setup.py`, together with theorems checking the design
specification against it.

Python string operations are modelled by structurally recursive functions
over `String.data` so that every definition evaluates inside the kernel.
External collaborators (the filesystem, the process environment, the MSVC
environment resolver, the package-directory resolver of `build_py`) are
passed in as explicit function parameters.  Side effects that do not
contribute to any checked property (logging, `mkdir`, the final
`.absolute()` resolution against the ambient working directory) are not
modelled; paths produced by `get_target_path` are represented as their
lists of components.
-/

/-! ## Python string primitives -/

/-- Models Python `s.startswith(p)`: `p` is a prefix of `s`. -/
def pyStartsWith (s p : String) : Bool := p.data.isPrefixOf s.data

/-- Auxiliary recursion for `pySplitChar`, carrying the current field in
reverse order. -/
def pySplitCharAux (c : Char) : List Char → List Char → List (List Char)
  | [], acc => [acc.reverse]
  | x :: xs, acc =>
      if x = c then acc.reverse :: pySplitCharAux c xs []
      else pySplitCharAux c xs (x :: acc)

/-- Models Python `s.split(c)` with an explicit one-character separator:
splits at every occurrence and keeps empty fields. -/
def pySplitChar (s : String) (c : Char) : List String :=
  (pySplitCharAux c s.data []).map fun l => ⟨l⟩

/-- Models Python `s.strip()`: removes leading and trailing whitespace. -/
def pyStrip (s : String) : String :=
  ⟨((s.data.dropWhile Char.isWhitespace).reverse.dropWhile Char.isWhitespace).reverse⟩

/-- Models Python slicing `s[n:]`. -/
def pyDrop (s : String) (n : Nat) : String := ⟨s.data.drop n⟩

/-- Models Python `sep.join(l)`. -/
def pyJoin (sep : String) : List String → String
  | [] => ""
  | [x] => x
  | x :: y :: xs => x ++ sep ++ pyJoin sep (y :: xs)

/-- Models Python `m or d` for `m : Optional[str]`: the default `d` is used
when `m` is absent or the empty string. -/
def pyOrDefault (m : Option String) (d : String) : String :=
  match m with
  | none => d
  | some s => if s = "" then d else s

/-- Models `pathlib`'s `Path(a) / b` for a plain component `b`: an empty
left operand drops out (`Path("") / "include"` is the relative path
`include`).  Normalisation of trailing separators is not modelled. -/
def pathJoin (a b : String) : String := if a = "" then b else a ++ "/" ++ b

/-- Models Python `os.environ.update(vars)` on an environment viewed as a
partial map: keys bound in `vars` (a finite map with distinct keys) win,
all other keys keep their previous binding. -/
def environUpdate (environ : String → Option String) (vars : List (String × String)) :
    String → Option String :=
  fun k =>
    match vars.lookup k with
    | some v => some v
    | none => environ k

/-! ## The subprocess helper (`BuildConvPhase.subprocess`, setup.py 57-78) -/

/-- Argument of `BuildConvPhase.subprocess`: either a list of arguments or a
single shell-style command string. -/
inductive SubprocessArg where
  | list (args : List String)
  | str (command : String)
deriving DecidableEq

/-- Loggable command string computed by the helper: a list is joined with
spaces, a string is used as is (setup.py 58-63). -/
def subprocess_command : SubprocessArg → String
  | .list args => pyJoin " " args
  | .str command => command

/-- Tool name computed by the helper: the first list element, or the first
space-separated token of the command string (setup.py 58-63). -/
def subprocess_tool : SubprocessArg → String
  | .list args => args.headD ""
  | .str command => (pySplitChar command ' ').headD ""

/-- Outcome of actually executing the external command: success with
captured output, an `OSError` (the executable could not be launched), or a
`CalledProcessError` (non-zero exit status). -/
inductive RunOutcome where
  | ok (output : String)
  | osError
  | calledProcessError

/-- Result of `BuildConvPhase.subprocess` (setup.py 67-78) as a function of
the execution outcome: success returns the output; `OSError` raises the
caller-supplied `missing` message, defaulting to a message naming the tool;
`CalledProcessError` raises the caller-supplied `error` message. -/
def subprocess_result (arg : SubprocessArg) (error : String) (missing : Option String)
    (outcome : RunOutcome) : Except String String :=
  match outcome with
  | .ok output => .ok output
  | .osError =>
      .error (pyOrDefault missing
        ("Couldn\x27t find " ++ subprocess_tool arg ++ ", is "
          ++ subprocess_tool arg ++ " installed?"))
  | .calledProcessError => .error error

/-! ## Environment setup (`BuildConvPhase.set_environ`, setup.py 80-87) -/

/-- Embeds `BuildConvPhase.set_environ` (setup.py 80-87).  `msvcEnv` stands
for `msvc.msvc14_get_vc_env`; `environ` is the process environment and
`windows` the current flag; the pair of updated environment and flag is
returned. -/
def set_environ (msvcEnv : String → List (String × String)) (plat_name : String)
    (environ : String → Option String) (windows : Bool) :
    (String → Option String) × Bool :=
  if pyStartsWith plat_name "win-" then
    let rest := pyDrop plat_name "win-".length
    (environUpdate environ (msvcEnv rest), true)
  else
    (environ, windows)

/-! ## Git submodules (`BuildConvPhase`, setup.py 89-106) -/

/-- Embeds `BuildConvPhase.git_submodules_initialized` (setup.py 89-99) as a
function of the captured output of `git submodule status`: the output is
split into lines and the answer is false exactly when some stripped line
starts with a dash. -/
def git_submodules_initialized (status_output : String) : Bool :=
  let submodules := pySplitChar status_output '\n'
  !(submodules.any fun submodule => pyStartsWith (pyStrip submodule) "-")

/-- Command run by `update_git_submodules` when submodules are not
initialized (setup.py 104). -/
def git_submodule_update_command : List String :=
  ["git", "submodule", "update", "--init", "--recursive"]

/-- Embeds `BuildConvPhase.update_git_submodules` (setup.py 101-106) as the
list of update commands it issues, as a function of the status output. -/
def update_git_submodules (status_output : String) : List (List String) :=
  if !git_submodules_initialized status_output then [git_submodule_update_command]
  else []

/-! ## hxcpp includes (`BuildConvPhase.find_hxcpp_includes`, setup.py 108-119) -/

/-- Embeds `BuildConvPhase.find_hxcpp_includes` (setup.py 108-119) as a
function of the captured `haxelib libpath hxcpp` output and of the
filesystem, given by an existence test and a directory listing.  Returns the
extended include list, or the fatal error message. -/
def find_hxcpp_includes (fsExists : String → Bool) (fsEntries : String → List String)
    (libpath_output : String) (hxcpp_includes : List String) :
    Except String (List String) :=
  let hxcpp := pyStrip libpath_output
  let path := pathJoin hxcpp "include"
  if !fsExists path || (fsEntries path).isEmpty then
    .error ("Bad hxcpp include: " ++ path)
  else
    .ok (hxcpp_includes ++ [path])

/-! ## Target path (`BuildConvPhase`, setup.py 137-156) -/

/-- Embeds `BuildConvPhase.get_target_filename` (setup.py 137-139): appends
the platform extension suffix (`EXT_SUFFIX`) to the module name. -/
def get_target_filename (suffix : String) (name : String) : String :=
  name ++ suffix

/-- Embeds `BuildConvPhase.get_target_path` (setup.py 141-156) as the list
of path components of the returned path.  `package_dir` stands for
`build_py.get_package_dir`, returning the components of the resolved package
directory.  The `mkdir` side effect and the final `.absolute()` resolution
against the working directory are not modelled. -/
def get_target_path (name : String) (inplace : Bool) (build_lib : String)
    (package_dir : String → List String) (suffix : String) : List String :=
  let parts := pySplitChar name '.'
  let filename := get_target_filename suffix (parts.getLastD "")
  if !inplace then
    build_lib :: (parts.dropLast ++ [filename])
  else
    package_dir (pyJoin "." parts.dropLast) ++ [filename]

/-! ## Premake (`BuildConvPhase.premake`, setup.py 158-193) -/

/-- Embeds the generator-action selection of `BuildConvPhase.premake`
(setup.py 158-169): on Windows the action is chosen from the
`VisualStudioVersion` environment variable, otherwise it is `gmake2`. -/
def premake_action (windows : Bool) (environ : String → Option String) :
    Except String String :=
  if windows then
    let version := environ "VisualStudioVersion"
    if version = some "16.0" then .ok "vs2019"
    else if version = some "17.0" then .ok "vs2022"
    else .error "Cannot determine Visual Studio version"
  else
    .ok "gmake2"

/-- Embeds the include-path string of `BuildConvPhase.premake`
(setup.py 175-178): Python includes followed by hxcpp includes, joined with
semicolons. -/
def premake_includedirs (python_includes hxcpp_includes : List String) : String :=
  pyJoin ";" (python_includes ++ hxcpp_includes)

/-- Embeds the command string built by `BuildConvPhase.premake`
(setup.py 158-193), or the fatal error raised while choosing the action. -/
def premake_command (windows : Bool) (environ : String → Option String)
    (python_includes hxcpp_includes python_libs : List String) (target : String) :
    Except String String :=
  match premake_action windows environ with
  | .error e => .error e
  | .ok action =>
    let command := "premake5 " ++ action
    let includes := python_includes ++ hxcpp_includes
    let command :=
      if includes.isEmpty then command
      else command ++ (" --includedirs=\"" ++ premake_includedirs python_includes hxcpp_includes ++ "\"")
    let command :=
      if python_libs.isEmpty then command
      else command ++ (" --libdirs=\"" ++ pyJoin ";" python_libs ++ "\"")
    .ok (command ++ (" --target=\"" ++ target ++ "\""))

/-! ## Build (`BuildConvPhase.build`, setup.py 195-207) -/

/-- Build tool chosen by `BuildConvPhase.build` (setup.py 195-201). -/
def build_tool (windows : Bool) : String :=
  if windows then "msbuild" else "make"

/-- Embeds `BuildConvPhase.build` (setup.py 195-207) as the subprocess
invocation it performs: the command argument, the failure message and the
missing-tool message handed to the subprocess helper. -/
def build_invocation (windows : Bool) : SubprocessArg × String × Option String :=
  let tool := build_tool windows
  let command := if windows then tool ++ " /p:Configuration=Release" else tool
  (SubprocessArg.str command,
   "Building with " ++ tool ++ " failed!",
   some ("Couldn\x27t find build tool: " ++ tool))

/-! ## Helper lemmas -/

/-- Dropping a prefix by a predicate from a list ending in an element the
predicate rejects keeps that last element. -/
theorem dropWhile_concat_reject {α : Type} (p : α → Bool) (a : α) (h : p a = false) :
    ∀ xs : List α, ∃ ys, (xs ++ [a]).dropWhile p = ys ++ [a] := by
  intro xs
  induction xs with
  | nil => exact ⟨[], by simp [List.dropWhile, h]⟩
  | cons x xs ih =>
    by_cases hx : p x = true
    · simpa [List.dropWhile_cons, hx] using ih
    · exact ⟨x :: xs, by simp [List.dropWhile_cons, hx]⟩

/-- A string that starts with a dash still starts with a dash after
stripping whitespace from both ends. -/
theorem pyStartsWith_pyStrip_dash (s : String) (h : pyStartsWith s "-" = true) :
    pyStartsWith (pyStrip s) "-" = true := by
  unfold pyStartsWith at h ⊢
  have hdash : Char.isWhitespace '-' = false := rfl
  obtain ⟨t, ht⟩ : ∃ t, s.data = '-' :: t := by
    cases hs : s.data with
    | nil => rw [hs] at h; simp [List.isPrefixOf] at h
    | cons b bs =>
      rw [hs] at h
      simp [List.isPrefixOf] at h
      exact ⟨bs, by rw [← h]⟩
  unfold pyStrip
  rw [ht]
  rw [List.dropWhile_cons, hdash]
  simp only [if_false, Bool.false_eq_true]
  rw [List.reverse_cons]
  obtain ⟨ys, hys⟩ := dropWhile_concat_reject Char.isWhitespace '-' hdash t.reverse
  rw [hys, List.reverse_append]
  simp [List.isPrefixOf]

/-- Characters of `pyJoin sep (l ++ [p])`: the last element is a suffix. -/
theorem pyJoin_concat_data (sep p : String) :
    ∀ l : List String, ∃ b : List Char, (pyJoin sep (l ++ [p])).data = b ++ p.data := by
  intro l
  induction l with
  | nil => exact ⟨[], by simp [pyJoin]⟩
  | cons x l ih =>
    obtain ⟨b, hb⟩ := ih
    cases l with
    | nil =>
      exact ⟨x.data ++ sep.data, by simp [pyJoin, String.data_append, List.append_assoc]⟩
    | cons y l =>
      refine ⟨x.data ++ sep.data ++ b, ?_⟩
      have heq : pyJoin sep (x :: y :: (l ++ [p])) = x ++ sep ++ pyJoin sep (y :: (l ++ [p])) := rfl
      simp only [List.cons_append] at hb ⊢
      rw [heq, String.data_append, String.data_append, hb]
      simp [List.append_assoc]

/-- A string whose characters end in a character other than `;` is not of
the form `t ++ ";"`. -/
theorem ne_append_semicolon_of_data_concat (s : String) (c : Char) (b : List Char)
    (h : s.data = b ++ [c]) (hc : c ≠ ';') (t : String) : s ≠ t ++ ";" := by
  intro he
  have hdata : s.data = t.data ++ [';'] := by
    rw [he, String.data_append]
  have h1 : s.data.getLast? = some c := by rw [h]; exact List.getLast?_concat _
  have h2 : s.data.getLast? = some ';' := by rw [hdata]; exact List.getLast?_concat _
  rw [h1] at h2
  exact hc (Option.some.injEq _ _ ▸ h2)

/-- The characters of `pathJoin a "include"` end in `e`. -/
theorem pathJoin_include_data (a : String) :
    ∃ b : List Char, (pathJoin a "include").data = b ++ ['e'] := by
  unfold pathJoin
  by_cases h : a = ""
  · exact ⟨['i', 'n', 'c', 'l', 'u', 'd'], by rw [if_pos h]; rfl⟩
  · refine ⟨a.data ++ '/' :: ['i', 'n', 'c', 'l', 'u', 'd'], ?_⟩
    rw [if_neg h, String.data_append, String.data_append]
    simp [List.append_assoc]

/-- Successful runs of `find_hxcpp_includes` append exactly the derived
include directory. -/
theorem find_hxcpp_includes_ok_eq (fsExists : String → Bool) (fsEntries : String → List String)
    (libpath_output : String) (hxcpp_includes res : List String)
    (h : find_hxcpp_includes fsExists fsEntries libpath_output hxcpp_includes = .ok res) :
    res = hxcpp_includes ++ [pathJoin (pyStrip libpath_output) "include"] := by
  simp only [find_hxcpp_includes] at h
  split at h
  · exact absurd h (by simp)
  · exact (Except.ok.inj h).symm

/-- A true `pyStartsWith` gives a decomposition of the string as the prefix
followed by the remaining slice. -/
theorem pyStartsWith_append_drop (s p : String) (h : pyStartsWith s p = true) :
    p ++ pyDrop s p.length = s := by
  apply String.ext
  rw [String.data_append]
  have hp : p.data <+: s.data := List.isPrefixOf_iff_prefix.mp h
  have := List.prefix_iff_eq_append.mp hp
  simpa [pyDrop] using this

/-! ## Claim theorems -/

/-- C1: for every dotted target name, in both build modes (in-place and
build-output), the compiled module's filename — the last component of the
path computed by `get_target_path`, produced through `get_target_filename`
— equals the leaf module name (the last dotted segment) concatenated with
the platform extension suffix. -/
theorem C1_target_filename_leaf_suffix (name : String) (inplace : Bool)
    (build_lib : String) (package_dir : String → List String) (suffix : String) :
    (get_target_path name inplace build_lib package_dir suffix).getLastD "" =
      get_target_filename suffix ((pySplitChar name '.').getLastD "") ∧
    get_target_filename suffix ((pySplitChar name '.').getLastD "") =
      (pySplitChar name '.').getLastD "" ++ suffix := by
  refine ⟨?_, rfl⟩
  unfold get_target_path
  cases inplace
  · show (build_lib :: ((pySplitChar name '.').dropLast ++
        [get_target_filename suffix ((pySplitChar name '.').getLastD "")])).getLastD "" = _
    rw [List.getLastD_cons]
    exact List.getLastD_concat _ _ _
  · show (package_dir (pyJoin "." (pySplitChar name '.').dropLast) ++
        [get_target_filename suffix ((pySplitChar name '.').getLastD "")]).getLastD "" = _
    exact List.getLastD_concat _ _ _

/-- C2: when the in-place flag is set, the path computed by
`get_target_path` does not depend on `build_lib` (it is derived through the
package-directory resolver); when the flag is clear, the path is
`build_lib` followed by the package segments and the leaf filename, and
does not depend on the package-directory resolver. -/
theorem C2_target_path_mode_dependencies :
    (∀ (name bl₁ bl₂ : String) (package_dir : String → List String) (suffix : String),
      get_target_path name true bl₁ package_dir suffix =
        get_target_path name true bl₂ package_dir suffix) ∧
    (∀ (name bl : String) (pd₁ pd₂ : String → List String) (suffix : String),
      get_target_path name false bl pd₁ suffix =
        bl :: ((pySplitChar name '.').dropLast ++
          [get_target_filename suffix ((pySplitChar name '.').getLastD "")]) ∧
      get_target_path name false bl pd₁ suffix =
        get_target_path name false bl pd₂ suffix) :=
  ⟨fun _ _ _ _ _ => rfl, fun _ _ _ _ _ => ⟨rfl, rfl⟩⟩

/-- C3: for every platform name starting with `win-`, `set_environ` strips
that prefix (the resolver is consulted at the remainder, whose
concatenation after `win-` restores the platform name), merges the resolved
MSVC variables into the process environment, and sets the Windows flag to
true. -/
theorem C3_set_environ_windows (msvcEnv : String → List (String × String))
    (environ : String → Option String) (windows : Bool) (plat_name : String)
    (h : pyStartsWith plat_name "win-" = true) :
    "win-" ++ pyDrop plat_name "win-".length = plat_name ∧
    set_environ msvcEnv plat_name environ windows =
      (environUpdate environ (msvcEnv (pyDrop plat_name "win-".length)), true) := by
  refine ⟨pyStartsWith_append_drop plat_name "win-" h, ?_⟩
  unfold set_environ
  rw [h]
  simp

/-- Witness for C3 at the platform name `win-amd64`. -/
theorem C3_set_environ_windows_witness :
    "win-" ++ pyDrop "win-amd64" "win-".length = "win-amd64" ∧
    set_environ (fun _ => [("LIB", "C:")]) "win-amd64" (fun _ => none) false =
      (environUpdate (fun _ => none) [("LIB", "C:")], true) :=
  C3_set_environ_windows (fun _ => [("LIB", "C:")]) (fun _ => none) false "win-amd64" rfl

/-- C10: for every platform name that does not start with `win-`,
`set_environ` leaves the process environment unchanged and the Windows flag
stays false. -/
theorem C10_set_environ_frame (msvcEnv : String → List (String × String))
    (environ : String → Option String) (plat_name : String)
    (h : pyStartsWith plat_name "win-" = false) :
    set_environ msvcEnv plat_name environ false = (environ, false) := by
  unfold set_environ
  rw [h]
  simp

/-- Witness for C10 at the platform name `linux-x86_64`. -/
theorem C10_set_environ_frame_witness :
    set_environ (fun _ => [("LIB", "C:")]) "linux-x86_64" (fun _ => none) false =
      ((fun _ => none), false) :=
  C10_set_environ_frame (fun _ => [("LIB", "C:")]) (fun _ => none) "linux-x86_64" rfl

/-- C4 counterexample: the status output consisting of the single line
` -a` (leading space) contains no line starting with `-`, yet
`update_git_submodules` issues the update command, because the code strips
each line before testing for the dash. -/
theorem C4_counterexample_stripped_line :
    ((pySplitChar " -a" '\n').any fun line => pyStartsWith line "-") = false ∧
    update_git_submodules " -a" = [git_submodule_update_command] :=
  ⟨rfl, rfl⟩

/-- C4 amended: for every submodule status output, if some line whose
whitespace-stripped form starts with `-` is present,
`git_submodules_initialized` returns false and `update_git_submodules`
triggers the update command exactly once; if no such line is present, the
update command is not triggered.  (In particular any line literally
starting with `-` still triggers the update, since stripping preserves a
leading dash.) -/
theorem C4_submodule_update_amended (status_output : String) :
    (((pySplitChar status_output '\n').any fun line =>
        pyStartsWith (pyStrip line) "-") = true →
      git_submodules_initialized status_output = false ∧
      update_git_submodules status_output = [git_submodule_update_command]) ∧
    (((pySplitChar status_output '\n').any fun line =>
        pyStartsWith (pyStrip line) "-") = false →
      update_git_submodules status_output = []) := by
  constructor
  · intro h
    have hinit : git_submodules_initialized status_output = false := by
      show (!(pySplitChar status_output '\n').any fun line =>
        pyStartsWith (pyStrip line) "-") = false
      rw [h]
      rfl
    exact ⟨hinit, by unfold update_git_submodules; rw [hinit]; rfl⟩
  · intro h
    have hinit : git_submodules_initialized status_output = true := by
      show (!(pySplitChar status_output '\n').any fun line =>
        pyStartsWith (pyStrip line) "-") = true
      rw [h]
      rfl
    unfold update_git_submodules
    rw [hinit]
    rfl

/-- Witness for the amended C4: a line whose stripped form starts with a
dash triggers exactly one update; a status output without such a line
triggers none. -/
theorem C4_submodule_update_amended_witness :
    (git_submodules_initialized "-a1b2c3 libs/phase" = false ∧
      update_git_submodules "-a1b2c3 libs/phase" = [git_submodule_update_command]) ∧
    update_git_submodules " a1b2c3 libs/phase (v1)" = [] :=
  ⟨(C4_submodule_update_amended "-a1b2c3 libs/phase").1 rfl,
   (C4_submodule_update_amended " a1b2c3 libs/phase (v1)").2 rfl⟩

/-- C5: whenever the hxcpp include discovery succeeded and the generator
action was determined, the include-path string passed to premake is the
Python include paths followed by the hxcpp include paths joined with `;`,
it has no trailing separator, and the generated command embeds it. -/
theorem C5_includedirs_order_and_join (windows : Bool) (environ : String → Option String)
    (python_includes python_libs : List String) (target : String)
    (fsExists : String → Bool) (fsEntries : String → List String)
    (libpath_output : String) (incs : List String) (action : String)
    (hfind : find_hxcpp_includes fsExists fsEntries libpath_output [] = .ok incs)
    (haction : premake_action windows environ = .ok action) :
    premake_includedirs python_includes incs = pyJoin ";" (python_includes ++ incs) ∧
    (∀ t, premake_includedirs python_includes incs ≠ t ++ ";") ∧
    ∃ (cmd : String) (b c : List Char),
      premake_command windows environ python_includes incs python_libs target = .ok cmd ∧
      cmd.data = b ++ (premake_includedirs python_includes incs).data ++ c := by
  have hincs : incs = [pathJoin (pyStrip libpath_output) "include"] := by
    have := find_hxcpp_includes_ok_eq fsExists fsEntries libpath_output [] incs hfind
    simpa using this
  subst hincs
  refine ⟨rfl, ?_, ?_⟩
  · intro t
    obtain ⟨b0, hb0⟩ := pathJoin_include_data (pyStrip libpath_output)
    obtain ⟨b1, hb1⟩ :=
      pyJoin_concat_data ";" (pathJoin (pyStrip libpath_output) "include") python_includes
    apply ne_append_semicolon_of_data_concat _ 'e' (b1 ++ b0) _ (by decide)
    show (pyJoin ";"
      (python_includes ++ [pathJoin (pyStrip libpath_output) "include"])).data = _
    rw [hb1, hb0, List.append_assoc]
  · have hne : (python_includes ++ [pathJoin (pyStrip libpath_output) "include"]).isEmpty
        = false := by
      cases python_includes <;> rfl
    cases hlibs : python_libs.isEmpty
    · refine ⟨"premake5 " ++ action
          ++ (" --includedirs=\"" ++ premake_includedirs python_includes
              [pathJoin (pyStrip libpath_output) "include"] ++ "\"")
          ++ (" --libdirs=\"" ++ pyJoin ";" python_libs ++ "\"")
          ++ (" --target=\"" ++ target ++ "\""),
        ("premake5 " ++ action ++ " --includedirs=\"").data,
        ("\"" ++ (" --libdirs=\"" ++ pyJoin ";" python_libs ++ "\"")
          ++ (" --target=\"" ++ target ++ "\"")).data, ?_, ?_⟩
      · unfold premake_command
        rw [haction]
        simp only [hne, Bool.false_eq_true, if_false, hlibs]
      · simp [String.data_append, List.append_assoc]
    · refine ⟨"premake5 " ++ action
          ++ (" --includedirs=\"" ++ premake_includedirs python_includes
              [pathJoin (pyStrip libpath_output) "include"] ++ "\"")
          ++ (" --target=\"" ++ target ++ "\""),
        ("premake5 " ++ action ++ " --includedirs=\"").data,
        ("\"" ++ (" --target=\"" ++ target ++ "\"")).data, ?_, ?_⟩
      · unfold premake_command
        rw [haction]
        simp only [hne, Bool.false_eq_true, if_false, hlibs, if_true]
      · simp [String.data_append, List.append_assoc]

/-- Witness for C5 on a unix configuration with one Python include path and
a successfully located hxcpp include directory. -/
theorem C5_includedirs_order_and_join_witness :
    premake_includedirs ["/py"] ["/hx/include"] = pyJoin ";" (["/py"] ++ ["/hx/include"]) ∧
    (∀ t, premake_includedirs ["/py"] ["/hx/include"] ≠ t ++ ";") ∧
    ∃ (cmd : String) (b c : List Char),
      premake_command false (fun _ => none) ["/py"] ["/hx/include"] [] "/t.so" = .ok cmd ∧
      cmd.data = b ++ (premake_includedirs ["/py"] ["/hx/include"]).data ++ c :=
  C5_includedirs_order_and_join false (fun _ => none) ["/py"] [] "/t.so"
    (fun _ => true) (fun _ => ["hxcpp.h"]) "/hx\n" ["/hx/include"] "gmake2" rfl rfl

/-- C6: with the Windows flag set, premake selects `vs2019` when
`VisualStudioVersion` is `16.0`, `vs2022` when it is `17.0`, and raises the
fatal `Cannot determine Visual Studio version` error for every other value
(including unset); with the flag clear, the action is `gmake2`. -/
theorem C6_premake_action_selection :
    (∀ environ : String → Option String, environ "VisualStudioVersion" = some "16.0" →
      premake_action true environ = .ok "vs2019") ∧
    (∀ environ : String → Option String, environ "VisualStudioVersion" = some "17.0" →
      premake_action true environ = .ok "vs2022") ∧
    (∀ environ : String → Option String, environ "VisualStudioVersion" ≠ some "16.0" →
      environ "VisualStudioVersion" ≠ some "17.0" →
      premake_action true environ = .error "Cannot determine Visual Studio version") ∧
    (∀ environ : String → Option String, premake_action false environ = .ok "gmake2") := by
  refine ⟨fun environ h => ?_, fun environ h => ?_,
    fun environ h16 h17 => ?_, fun environ => rfl⟩
  · simp [premake_action, h]
  · simp [premake_action, h]
  · simp [premake_action, h16, h17]

/-- Witness for C6 at each of the four cases. -/
theorem C6_premake_action_selection_witness :
    premake_action true (fun _ => some "16.0") = .ok "vs2019" ∧
    premake_action true (fun _ => some "17.0") = .ok "vs2022" ∧
    premake_action true (fun _ => none) = .error "Cannot determine Visual Studio version" ∧
    premake_action false (fun _ => none) = .ok "gmake2" :=
  ⟨C6_premake_action_selection.1 (fun _ => some "16.0") rfl,
   C6_premake_action_selection.2.1 (fun _ => some "17.0") rfl,
   C6_premake_action_selection.2.2.1 (fun _ => none) (by decide) (by decide),
   C6_premake_action_selection.2.2.2 (fun _ => none)⟩

/-- C7: with the Windows flag set the compilation step invokes
`msbuild /p:Configuration=Release`, otherwise `make` with no extra
arguments; in both cases a missing tool or a non-zero exit raises a fatal
error carrying a message naming the tool. -/
theorem C7_build_step :
    (build_invocation true).1 = SubprocessArg.str "msbuild /p:Configuration=Release" ∧
    (build_invocation false).1 = SubprocessArg.str "make" ∧
    ∀ windows : Bool,
      subprocess_result (build_invocation windows).1 (build_invocation windows).2.1
          (build_invocation windows).2.2 RunOutcome.osError =
        .error ("Couldn\x27t find build tool: " ++ build_tool windows) ∧
      subprocess_result (build_invocation windows).1 (build_invocation windows).2.1
          (build_invocation windows).2.2 RunOutcome.calledProcessError =
        .error ("Building with " ++ build_tool windows ++ " failed!") := by
  refine ⟨rfl, rfl, fun windows => ?_⟩
  cases windows <;> exact ⟨rfl, rfl⟩

/-- C8 counterexample: with an empty locator output the derived include
path is the relative directory `include`; on a filesystem where that
directory exists and is non-empty, `find_hxcpp_includes` raises no error
and appends the path, contradicting the unconditional
empty-string-raises clause. -/
theorem C8_counterexample_empty_output :
    find_hxcpp_includes (fun p => p == "include") (fun _ => ["hxcpp.h"]) "" [] =
      .ok ["include"] := rfl

/-- C8 amended: if the derived include directory — the whitespace-stripped
locator output joined with `include`, which for an empty output is the
relative path `include` — does not exist or is empty, `find_hxcpp_includes`
raises the fatal `Bad hxcpp include` error naming that path; otherwise it
appends exactly that directory to the hxcpp include list. -/
theorem C8_find_hxcpp_amended (fsExists : String → Bool) (fsEntries : String → List String)
    (libpath_output : String) (hxcpp_includes : List String) :
    (fsExists (pathJoin (pyStrip libpath_output) "include") = false ∨
        fsEntries (pathJoin (pyStrip libpath_output) "include") = [] →
      find_hxcpp_includes fsExists fsEntries libpath_output hxcpp_includes =
        .error ("Bad hxcpp include: " ++ pathJoin (pyStrip libpath_output) "include")) ∧
    (fsExists (pathJoin (pyStrip libpath_output) "include") = true →
      fsEntries (pathJoin (pyStrip libpath_output) "include") ≠ [] →
      find_hxcpp_includes fsExists fsEntries libpath_output hxcpp_includes =
        .ok (hxcpp_includes ++ [pathJoin (pyStrip libpath_output) "include"])) := by
  constructor
  · rintro (h | h) <;> simp [find_hxcpp_includes, h]
  · intro h1 h2
    obtain ⟨y, ys, hy⟩ := List.exists_cons_of_ne_nil h2
    simp [find_hxcpp_includes, h1, hy]

/-- Witness for the amended C8: a missing directory raises the error; an
existing non-empty directory is appended. -/
theorem C8_find_hxcpp_amended_witness :
    find_hxcpp_includes (fun _ => false) (fun _ => []) "/hx\n" [] =
      .error ("Bad hxcpp include: " ++ pathJoin (pyStrip "/hx\n") "include") ∧
    find_hxcpp_includes (fun _ => true) (fun _ => ["hxcpp.h"]) "/hx\n" [] =
      .ok ([] ++ [pathJoin (pyStrip "/hx\n") "include"]) :=
  ⟨(C8_find_hxcpp_amended (fun _ => false) (fun _ => []) "/hx\n" []).1 (Or.inl rfl),
   (C8_find_hxcpp_amended (fun _ => true) (fun _ => ["hxcpp.h"]) "/hx\n" []).2 rfl
     (by decide)⟩

/-- C9: through the subprocess helper, a launch failure raises the
caller-supplied missing message when one was supplied, and otherwise the
default message naming the tool twice; a non-zero exit raises the
caller-supplied error message; a successful run returns the output (there
is no retry: the result is a single, final outcome). -/
theorem C9_subprocess_error_translation (arg : SubprocessArg) (error m output : String)
    (hm : m ≠ "") :
    subprocess_result arg error (some m) RunOutcome.osError = .error m ∧
    subprocess_result arg error none RunOutcome.osError =
      .error ("Couldn\x27t find " ++ subprocess_tool arg ++ ", is "
        ++ subprocess_tool arg ++ " installed?") ∧
    (∀ missing : Option String,
      subprocess_result arg error missing RunOutcome.calledProcessError = .error error) ∧
    subprocess_result arg error (some m) (RunOutcome.ok output) = .ok output := by
  refine ⟨?_, rfl, fun missing => rfl, rfl⟩
  show Except.error (if m = "" then "Couldn\x27t find " ++ subprocess_tool arg ++ ", is "
    ++ subprocess_tool arg ++ " installed?" else m) = Except.error m
  rw [if_neg hm]

/-- Witness for C9 at the premake invocation: a supplied missing message, a
missing message left out, a failed run, and a successful run. -/
theorem C9_subprocess_error_translation_witness :
    subprocess_result (SubprocessArg.str "premake5 gmake2")
        "premake failed for action: gmake2" (some "Couldn\x27t find haxelib, is haxe installed?")
        RunOutcome.osError = .error "Couldn\x27t find haxelib, is haxe installed?" ∧
    subprocess_result (SubprocessArg.str "premake5 gmake2")
        "premake failed for action: gmake2" none RunOutcome.osError =
      .error ("Couldn\x27t find " ++ subprocess_tool (SubprocessArg.str "premake5 gmake2")
        ++ ", is " ++ subprocess_tool (SubprocessArg.str "premake5 gmake2") ++ " installed?") ∧
    subprocess_result (SubprocessArg.str "premake5 gmake2")
        "premake failed for action: gmake2" none RunOutcome.calledProcessError =
      .error "premake failed for action: gmake2" ∧
    subprocess_result (SubprocessArg.str "premake5 gmake2")
        "premake failed for action: gmake2"
        (some "Couldn\x27t find haxelib, is haxe installed?") (RunOutcome.ok "done") =
      .ok "done" := by
  obtain ⟨h1, h2, h3, h4⟩ := C9_subprocess_error_translation (SubprocessArg.str "premake5 gmake2")
    "premake failed for action: gmake2" "Couldn\x27t find haxelib, is haxe installed?"
    "done" (by decide)
  exact ⟨h1, h2, h3 none, h4⟩
